import Mathlib

/-! # Leaflet / Google Sheets map script

A shallow embedding of `src/main.js`: the geometry normaliser `parseGeom`,
the row-to-marker loop `addPoints`, and the click handlers that drive the
side panel, together with the properties stated about them.

JavaScript values are embedded as the JSON-like type `JSVal`; an operation
that can throw returns `Except JSError`.
-/

namespace LeafletGSheets

/-- JavaScript values of the JSON kind, plus `undefined`. Numbers carry a
rational payload: the script never computes with a number, it only tests
`typeof` and passes the value on. Objects are plain objects, given by
their own fields in order. -/
inductive JSVal where
  | undefined
  | null
  | bool (b : Bool)
  | num (q : ℚ)
  | str (s : String)
  | arr (elems : List JSVal)
  | obj (fields : List (String × JSVal))

/-- Errors a JavaScript operation throws. -/
inductive JSError where
  | typeError
  deriving DecidableEq, Repr

open JSVal

/-- Own field `k` of a plain object, the first one found. -/
def lookupKey (k : String) : List (String × JSVal) → Option JSVal
  | [] => none
  | (k', v) :: rest => if k' = k then some v else lookupKey k rest

/-- The `typeof` operator. -/
def typeOf : JSVal → String
  | undefined => "undefined"
  | null => "object"
  | .bool _ => "boolean"
  | num _ => "number"
  | str _ => "string"
  | arr _ => "object"
  | obj _ => "object"

/-- Member access `v.k` for a named key `k`. Reading a member of `undefined`
or `null` throws a TypeError. Arrays and strings answer `length`; any other
name is looked up among the own fields of an object and is `undefined`
elsewhere (names that the built-in prototypes define, such as `map`, are
not used by the script and are not modelled). -/
def getProp (v : JSVal) (k : String) : Except JSError JSVal :=
  match v with
  | undefined => .error .typeError
  | null => .error .typeError
  | obj fs => .ok ((lookupKey k fs).getD undefined)
  | arr xs => .ok (if k = "length" then num xs.length else undefined)
  | str s => .ok (if k = "length" then num s.length else undefined)
  | _ => .ok undefined

/-- Indexed access `v[i]`. Reading an index of `undefined` or `null` throws a
TypeError; an array gives its element or `undefined`; a string gives the
one-character string at that position; an object is asked for the key
written as the decimal numeral `i`. -/
def getIndex (v : JSVal) (i : Nat) : Except JSError JSVal :=
  match v with
  | undefined => .error .typeError
  | null => .error .typeError
  | arr xs => .ok (xs.getD i undefined)
  | str s => .ok (match s.toList.get? i with
      | some c => str (String.singleton c)
      | none => undefined)
  | obj fs => .ok ((lookupKey (toString i) fs).getD undefined)
  | _ => .ok undefined

/-- The `in` operator, `k in v`, for a named key `k` that no built-in
prototype defines. The right operand must be an object: a primitive throws
a TypeError. -/
def hasKey (k : String) (v : JSVal) : Except JSError Bool :=
  match v with
  | obj fs => .ok (lookupKey k fs).isSome
  | arr _ => .ok (decide (k = "length"))
  | _ => .error .typeError

mutual
/-- `Array.prototype.join` with the separator `,`, which is how an array is
converted to a string. The elements are converted from left to right, and a
conversion that throws ends the join with that error. The result is `none`
when a number would have to be printed. -/
def joinStr? : List JSVal → Except JSError (Option String)
  | [] => .ok (some "")
  | [x] => elemStr? x
  | x :: y :: rest =>
    match elemStr? x with
    | .error e => .error e
    | .ok a =>
      match joinStr? (y :: rest) with
      | .error e => .error e
      | .ok b =>
        match a, b with
        | some a, some b => .ok (some (a ++ "," ++ b))
        | _, _ => .ok none
/-- ToString of one element of a joined array: `undefined` and `null` print
as the empty string, a plain object prints as `[object Object]` through the
inherited `toString`. An object with an own field `toString` hides the
inherited method; the field of a JSON-like value is not callable and the
inherited `valueOf` returns the object itself, so the conversion throws a
TypeError. The formatting of numbers is not modelled: `none` stands for a
string that contains a printed number. -/
def elemStr? : JSVal → Except JSError (Option String)
  | undefined => .ok (some "")
  | null => .ok (some "")
  | .bool b => .ok (some (if b then "true" else "false"))
  | num _ => .ok none
  | str s => .ok (some s)
  | arr xs => joinStr? xs
  | obj fs =>
    if (lookupKey "toString" fs).isSome then .error .typeError
    else .ok (some "[object Object]")
end

/-- Loose equality `v == tag` against a string literal `tag` that is not a
numeric literal and contains no digit and none of the letters `N`, `I` (both
tags of the script are such). A string compares by content; `undefined` and
`null` equal no string; a number or boolean is compared as a number with
ToNumber(tag) = NaN, which is false; an array or object is first converted
to a primitive, which for these values is their string form, and that
conversion throws a TypeError on an object with an own field `toString`
(directly or inside an array). A printed number always contains a digit or
is `NaN` or `Infinity`, so a conversion that prints one cannot give `tag`. -/
def looseEqTag (v : JSVal) (tag : String) : Except JSError Bool :=
  match v with
  | str t => .ok (decide (t = tag))
  | arr xs =>
    match joinStr? xs with
    | .error e => .error e
    | .ok r => .ok (decide (r = some tag))
  | obj fs =>
    if (lookupKey "toString" fs).isSome then .error .typeError
    else .ok (decide ("[object Object]" = tag))
  | _ => .ok false

/--
Accepts any GeoJSON-ish object and returns an Array of GeoJSON Features.
Attempts to guess the geometry type when a bare coordinates Array is
supplied. (`parseGeom` of `src/main.js`.)
-/
def parseGeom (gj : JSVal) : Except JSError JSVal := do
  let t ← getProp gj "type"
  let isCollection ← looseEqTag t "FeatureCollection"
  -- FeatureCollection
  if isCollection then
    getProp gj "features"
  else
    let t ← getProp gj "type"
    let isFeat ← looseEqTag t "Feature"
    -- Feature
    if isFeat then
      pure (arr [gj])
    else
      let tagged ← hasKey "type" gj
      -- Geometry
      if tagged then
        pure (arr [obj [("type", str "Feature"), ("geometry", gj)]])
      -- Coordinates
      else
        let g0 ← getIndex gj 0
        if typeOf g0 = "number" then
          pure (arr [obj [("type", str "Feature"),
            ("geometry", obj [("type", str "Point"), ("coordinates", gj)])]])
        else
          let g0 ← getIndex gj 0
          let g00 ← getIndex g0 0
          if typeOf g00 = "number" then
            pure (arr [obj [("type", str "Feature"),
              ("geometry", obj [("type", str "LineString"), ("coordinates", gj)])]])
          else
            let g0 ← getIndex gj 0
            let g00 ← getIndex g0 0
            let g000 ← getIndex g00 0
            if typeOf g000 = "number" then
              pure (arr [obj [("type", str "Feature"),
                ("geometry", obj [("type", str "Polygon"), ("coordinates", gj)])]])
            else
              pure (arr [obj [("type", str "Feature"),
                ("geometry", obj [("type", str "MultiPolygon"), ("coordinates", gj)])]])

/-! ## The data model of the specification -/

/-- The value is a number (`typeof v == "number"`). -/
def isNum : JSVal → Bool
  | num _ => true
  | _ => false

/-- The value is present: neither `undefined` nor `null`. -/
def isPresent : JSVal → Bool
  | undefined => false
  | null => false
  | _ => true

/-- The input carries a type tag equal to `tag`: it is an object with a
`type` field whose value compares equal (`==`) to the string `tag`. For a
string-valued field this is equality of strings. -/
def tagIs (gj : JSVal) (tag : String) : Bool :=
  match gj with
  | obj fs =>
    match lookupKey "type" fs with
    | some v =>
      match looseEqTag v tag with
      | .ok b => b
      | .error _ => false
    | none => false
  | _ => false

/-- The input carries a type tag that differs from `tag`: it is an object
with a `type` field whose value the comparison `==` with the string `tag`
finds unequal, without raising. Every string other than `tag` is such a
value. -/
def tagDiffers (gj : JSVal) (tag : String) : Bool :=
  match gj with
  | obj fs =>
    match lookupKey "type" fs with
    | some v =>
      match looseEqTag v tag with
      | .ok b => !b
      | .error _ => false
    | none => false
  | _ => false

/-- A geometry-tagged input: an object with a `type` field that differs from
both wrapper tags. -/
def isGeometryTagged (gj : JSVal) : Bool :=
  tagDiffers gj "FeatureCollection" && tagDiffers gj "Feature"

mutual
/-- A bare coordinate array: a non-empty array each of whose elements is a
number or, again, a bare coordinate array (a nested numeric array). -/
def isCoordinates : JSVal → Bool
  | arr (x :: rest) => (isNum x || isCoordinates x) && isCoordinatesTail rest
  | _ => false
/-- Every element of the list is a number or a bare coordinate array. -/
def isCoordinatesTail : List JSVal → Bool
  | [] => true
  | x :: rest => (isNum x || isCoordinates x) && isCoordinatesTail rest
end

/-- First element of a non-empty array. -/
def first? : JSVal → Option JSVal
  | arr (x :: _) => some x
  | _ => none

/-- The option holds a number. -/
def holdsNum : Option JSVal → Bool
  | some v => isNum v
  | none => false

/-- The geometry type the depth rule gives a bare array `gj`: Point when
`gj[0]` is a number, LineString when `gj[0][0]` is a number, Polygon when
`gj[0][0][0]` is a number, MultiPolygon otherwise, tested in that order. -/
def depthRuleType (gj : JSVal) : String :=
  if holdsNum (first? gj) then "Point"
  else if holdsNum ((first? gj).bind first?) then "LineString"
  else if holdsNum (((first? gj).bind first?).bind first?) then "Polygon"
  else "MultiPolygon"

/-- Nesting depth of the first-element chain: the number of array levels met
when going from a value to its first element, again and again. -/
def firstChainDepth : JSVal → Nat
  | arr (x :: _) => firstChainDepth x + 1
  | arr [] => 1
  | _ => 0

/-- The synthetic Feature `{type:"Feature", geometry:{type: T, coordinates: c}}`. -/
def coordinatesFeature (T : String) (c : JSVal) : JSVal :=
  obj [("type", str "Feature"), ("geometry", obj [("type", str T), ("coordinates", c)])]

/-- A Feature of the data model: an object with the type tag `"Feature"` and
a geometry object that has a `type` and a `coordinates` field. -/
def isFeature : JSVal → Bool
  | obj fs =>
    match lookupKey "type" fs, lookupKey "geometry" fs with
    | some (str t), some (obj g) =>
      decide (t = "Feature") && (lookupKey "type" g).isSome && (lookupKey "coordinates" g).isSome
    | _, _ => false
  | _ => false

/-- An input of one of the four shapes that is complete: a FeatureCollection
whose feature list is a non-empty array of Features, a Feature-tagged object
that is a Feature, a geometry-tagged object with a `coordinates` field, or a
bare coordinate array. -/
def isCompleteInput (gj : JSVal) : Bool :=
  match gj with
  | obj fs =>
    if tagIs gj "FeatureCollection" then
      match lookupKey "features" fs with
      | some (arr (f :: F)) => (f :: F).all isFeature
      | _ => false
    else if tagIs gj "Feature" then isFeature gj
    else isGeometryTagged gj && (lookupKey "coordinates" fs).isSome
  | arr _ => isCoordinates gj
  | _ => false

/-- The value of `v[0]`, taken as `undefined` where the access throws. -/
def elem0 (v : JSVal) : JSVal :=
  match getIndex v 0 with
  | .ok x => x
  | .error _ => undefined

/-- The fourth branch of the depth rule is reached on `gj`: `gj[0]` and
`gj[0][0]` are present, and none of `gj[0]`, `gj[0][0]`, `gj[0][0][0]` is a
number. -/
def reachesMultiPolygon (gj : JSVal) : Bool :=
  !isNum (elem0 gj) && isPresent (elem0 gj) &&
  !isNum (elem0 (elem0 gj)) && isPresent (elem0 (elem0 gj)) &&
  !isNum (elem0 (elem0 (elem0 gj)))

/-! ## Rows to markers: `addPoints` -/

/-- The result object the CSV parser hands to its `complete` callback; `data`
is the array of parsed rows. -/
structure ParseResult where
  data : List JSVal

/-- Options given to `L.AwesomeMarkers.icon`. The field `pfx` is the option
`prefix` of the source. -/
structure Icon where
  icon : String
  iconColor : String
  markerColor : JSVal
  pfx : String
  extraClasses : String

/-- The three point primitives: `L.marker`, `L.circleMarker` and `L.circle`,
the circles with their radius option. -/
inductive Shape where
  | marker
  | circleMarker (radius : ℚ)
  | circle (radius : ℚ)

/-- The object literal `{ name: …, description: … }`. -/
structure Properties where
  name : JSVal
  description : JSVal

/-- The object literal `{ properties: … }` assigned to `marker.feature`. -/
structure MarkerFeature where
  properties : Properties

/-- A point visual as `addPoints` leaves it: built by one of the three
primitives at the position `[lat, lon]`, with its `feature` and, unless it is
a circle, its icon. Every marker has the click handler `markerClick`. The
primitives of the map library are taken to accept every position; rows of
the data model carry a numeric latitude and longitude. -/
structure Marker where
  shape : Shape
  latlng : JSVal × JSVal
  feature : MarkerFeature
  icon : Option Icon

/-- The local `markerType` of `addPoints`. -/
def markerType : String := "marker"

/-- The local `markerRadius` of `addPoints`. -/
def markerRadius : ℚ := 100

/-- `s.includes(sub)`: `sub` occurs in `s`. -/
def includes (s sub : String) : Bool :=
  s.toList.tails.any (fun t => sub.toList.isPrefixOf t)

/-- `data[row].k`. -/
def rowField (data : List JSVal) (row : Nat) (k : String) : Except JSError JSVal := do
  let r ← getIndex (arr data) row
  getProp r k

/-- The loop `for (let row = 0; row < data.length; row++)` of `addPoints`,
with `remaining` iterations to go from index `row`; `layer` is the content of
`pointGroupLayer` so far, in the order the markers were added. -/
def addPointsLoop (data : List JSVal) : (remaining : Nat) → (row : Nat) → List Marker →
    Except JSError (List Marker)
  | 0, _, layer => pure layer
  | k + 1, row, layer => do
    let lat ← rowField data row "lat"
    let lon ← rowField data row "lon"
    let shape : Shape :=
      if markerType = "circleMarker" then .circleMarker markerRadius
      else if markerType = "circle" then .circle markerRadius
      else .marker
    let name ← rowField data row "name"
    let description ← rowField data row "description"
    let color ← rowField data row "color"
    let icon : Icon :=
      { icon := "info-circle", iconColor := "white", markerColor := color,
        pfx := "fa", extraClasses := "fa-rotate-0" }
    let marker : Marker :=
      { shape := shape, latlng := (lat, lon),
        feature := { properties := { name := name, description := description } },
        icon := if !includes markerType "circle" then some icon else none }
    addPointsLoop data k (row + 1) (layer ++ [marker])

/-- Builds one marker per row of the parsed sheet and returns the content of
the point layer. (`addPoints` of `src/main.js`.) -/
def addPoints (data : ParseResult) : Except JSError (List Marker) :=
  let data := data.data
  addPointsLoop data data.length 0 []

/-- Attribute `k` of a row given by its fields, `undefined` when the row has
no such column. -/
def field (row : List (String × JSVal)) (k : String) : JSVal :=
  (lookupKey k row).getD undefined

/-- The point visual of one row: a standard marker at (lat, lon) that carries
the row's name and description as feature properties and an icon in the
row's color. -/
def rowMarker (row : List (String × JSVal)) : Marker :=
  { shape := .marker, latlng := (field row "lat", field row "lon"),
    feature := { properties := { name := field row "name",
                                 description := field row "description" } },
    icon := some { icon := "info-circle", iconColor := "white", markerColor := field row "color",
                   pfx := "fa", extraClasses := "fa-rotate-0" } }

/-! ## The side panel -/

/-- The global `panelID`. -/
def panelID : String := "my-info-panel"

/-- Modelled from the spec: the DOM and the sidebar control of the map
library are not part of the sources. This is the page state the click
handlers act on: the two DOM elements hold what was last assigned to their
`innerHTML`, and `openPanel` is the PanelState of the sidebar, the identifier
of the open panel or `none` when the sidebar is closed. -/
structure Page where
  sidebarTitle : JSVal
  sidebarContent : JSVal
  openPanel : Option String

/-- Modelled from the spec: `sidebar.open(id)` of the sidebar control, whose
code is not part of the sources; it makes `id` the open panel. -/
def sidebarOpen (id : String) (p : Page) : Page :=
  { p with openPanel := some id }

/-- Modelled from the spec: `sidebar.close(id)` of the sidebar control, whose
code is not part of the sources; it leaves no panel open. -/
def sidebarClose (_id : String) (p : Page) : Page :=
  { p with openPanel := none }

/-- The page as `init` leaves it: the panel added with its initial title and
empty body, the sidebar closed. -/
def initPage : Page :=
  { sidebarTitle := str "Seleziona un marker", sidebarContent := str "", openPanel := none }

/-- A click event on a marker, with the flag `L.DomEvent.stopPropagation`
sets. -/
structure ClickEvent where
  target : Marker
  propagationStopped : Bool

/-- Modelled from the spec: `L.DomEvent.stopPropagation(e)` of the map
library, whose code is not part of the sources; it keeps the click from
reaching the map-level handler. -/
def stopPropagation (e : ClickEvent) : ClickEvent :=
  { e with propagationStopped := true }

/-- The click handler `addPoints` registers on every marker. -/
def markerClick (e : ClickEvent) (p : Page) : ClickEvent × Page :=
  let e := stopPropagation e
  let p := { p with sidebarTitle := e.target.feature.properties.name }
  let p := { p with sidebarContent := e.target.feature.properties.description }
  (e, sidebarOpen panelID p)

/-- The click handler `init` registers on the map. -/
def mapClick (p : Page) : Page :=
  sidebarClose panelID p

/-- A click of the user: on a marker or on the map background. -/
inductive Click where
  | marker (m : Marker)
  | background

/-- Modelled from the spec: the event delivery of the map library, whose code
is not part of the sources. A click on a marker runs the marker's handler and
then, unless that handler stopped propagation, the map-level handler; a click
on the background runs the map-level handler. -/
def fire (c : Click) (p : Page) : Page :=
  match c with
  | .background => mapClick p
  | .marker m =>
    let (e, p) := markerClick { target := m, propagationStopped := false } p
    if e.propagationStopped then p else mapClick p

/-- The page after a sequence of clicks. -/
def runClicks (clicks : List Click) (p : Page) : Page :=
  clicks.foldl (fun p c => fire c p) p

/-! ## Properties of `parseGeom` -/

theorem typeOf_eq_number (v : JSVal) : typeOf v = "number" ↔ isNum v = true := by
  cases v <;> simp [typeOf, isNum]

theorem isCoordinates_arr (gj : JSVal) (h : isCoordinates gj = true) :
    ∃ x rest, gj = arr (x :: rest) ∧ (isNum x = true ∨ isCoordinates x = true) := by
  cases gj with
  | arr xs =>
    cases xs with
    | nil => simp [isCoordinates] at h
    | cons x rest =>
      refine ⟨x, rest, rfl, ?_⟩
      simp only [isCoordinates, Bool.and_eq_true, Bool.or_eq_true] at h
      exact h.1
  | _ => simp [isCoordinates] at h

theorem getIndex_arr_cons_zero (x : JSVal) (rest : List JSVal) :
    getIndex (arr (x :: rest)) 0 = .ok x := rfl

theorem getIndex_of_present (v : JSVal) (h : isPresent v = true) :
    getIndex v 0 = .ok (elem0 v) := by
  cases v <;> simp [isPresent] at h <;> simp [elem0, getIndex]

theorem getIndex_of_absent (v : JSVal) (h : isPresent v = false) :
    getIndex v 0 = .error .typeError := by
  cases v <;> simp [isPresent] at h <;> rfl

/-- On an input with no type key, array or object, `parseGeom` goes straight
to the depth tests. -/
theorem parseGeom_untagged (gj : JSVal)
    (h : (∃ xs, gj = arr xs) ∨ (∃ fs, gj = obj fs ∧ lookupKey "type" fs = none)) :
    parseGeom gj =
      if isNum (elem0 gj) = true then .ok (arr [coordinatesFeature "Point" gj])
      else (getIndex (elem0 gj) 0).bind fun g00 =>
        if isNum g00 = true then .ok (arr [coordinatesFeature "LineString" gj])
        else (getIndex g00 0).bind fun g000 =>
          if isNum g000 = true then .ok (arr [coordinatesFeature "Polygon" gj])
          else .ok (arr [coordinatesFeature "MultiPolygon" gj]) := by
  have hp : getIndex gj 0 = .ok (elem0 gj) := by
    rcases h with ⟨xs, rfl⟩ | ⟨fs, rfl, _⟩ <;> exact getIndex_of_present _ rfl
  rcases h with ⟨xs, rfl⟩ | ⟨fs, rfl, hk⟩
  · simp only [parseGeom, getProp, hasKey, hp, looseEqTag, bind, Except.bind,
      pure, Except.pure, typeOf_eq_number, coordinatesFeature]
    cases getIndex (elem0 (arr xs)) 0 <;> simp
  · simp only [parseGeom, getProp, hasKey, hk, hp, looseEqTag, bind, Except.bind,
      pure, Except.pure, typeOf_eq_number, coordinatesFeature]
    cases getIndex (elem0 (obj fs)) 0 <;> simp [looseEqTag]

/-- On an array the first three branches of `parseGeom` are not taken. -/
theorem parseGeom_arr_cons (x : JSVal) (rest : List JSVal) :
    parseGeom (arr (x :: rest)) =
      if isNum x = true then .ok (arr [coordinatesFeature "Point" (arr (x :: rest))])
      else (getIndex x 0).bind fun g00 =>
        if isNum g00 = true then .ok (arr [coordinatesFeature "LineString" (arr (x :: rest))])
        else (getIndex g00 0).bind fun g000 =>
          if isNum g000 = true then .ok (arr [coordinatesFeature "Polygon" (arr (x :: rest))])
          else .ok (arr [coordinatesFeature "MultiPolygon" (arr (x :: rest))]) :=
  parseGeom_untagged (arr (x :: rest)) (Or.inl ⟨_, rfl⟩)

theorem looseEqTag_feature_not_collection (v : JSVal)
    (h : looseEqTag v "Feature" = .ok true) : looseEqTag v "FeatureCollection" = .ok false := by
  cases v with
  | str t =>
    simp only [looseEqTag, Except.ok.injEq, decide_eq_true_eq] at h
    subst h
    rfl
  | arr xs =>
    simp only [looseEqTag] at h ⊢
    cases hj : joinStr? xs with
    | error e => simp [hj] at h
    | ok r =>
      simp only [hj, Except.ok.injEq, decide_eq_true_eq] at h
      subst h
      rfl
  | obj fs =>
    simp only [looseEqTag] at h
    split at h
    · simp at h
    · simp at h
  | _ => rfl

theorem tagIs_eq_true (fs : List (String × JSVal)) (tag : String)
    (h : tagIs (obj fs) tag = true) :
    ∃ v, lookupKey "type" fs = some v ∧ looseEqTag v tag = .ok true := by
  simp only [tagIs] at h
  cases hk : lookupKey "type" fs with
  | none => simp [hk] at h
  | some v =>
    simp only [hk] at h
    cases hl : looseEqTag v tag with
    | error e => simp [hl] at h
    | ok b =>
      simp only [hl] at h
      subst h
      exact ⟨v, rfl, hl⟩

theorem tagDiffers_eq_true (fs : List (String × JSVal)) (tag : String)
    (h : tagDiffers (obj fs) tag = true) :
    ∃ v, lookupKey "type" fs = some v ∧ looseEqTag v tag = .ok false := by
  simp only [tagDiffers] at h
  cases hk : lookupKey "type" fs with
  | none => simp [hk] at h
  | some v =>
    simp only [hk] at h
    cases hl : looseEqTag v tag with
    | error e => simp [hl] at h
    | ok b =>
      simp only [hl, Bool.not_eq_true'] at h
      subst h
      exact ⟨v, rfl, hl⟩

theorem parseGeom_of_collection (fs : List (String × JSVal))
    (ht : tagIs (obj fs) "FeatureCollection" = true) :
    parseGeom (obj fs) = .ok (field fs "features") := by
  obtain ⟨v, hk, hl⟩ := tagIs_eq_true fs _ ht
  simp [parseGeom, getProp, hk, hl, bind, Except.bind, field]

theorem parseGeom_of_feature (gj : JSVal) (ht : tagIs gj "Feature" = true) :
    parseGeom gj = .ok (arr [gj]) := by
  cases gj with
  | obj fs =>
    obtain ⟨v, hk, hl⟩ := tagIs_eq_true fs _ ht
    simp [parseGeom, getProp, hk, hl, looseEqTag_feature_not_collection v hl, bind,
      Except.bind, pure, Except.pure]
  | _ => simp [tagIs] at ht

theorem parseGeom_of_geometry (gj : JSVal) (ht : isGeometryTagged gj = true) :
    parseGeom gj = .ok (arr [obj [("type", str "Feature"), ("geometry", gj)]]) := by
  cases gj with
  | obj fs =>
    simp only [isGeometryTagged, Bool.and_eq_true] at ht
    obtain ⟨v, hk, h1⟩ := tagDiffers_eq_true fs _ ht.1
    obtain ⟨w, hk2, h2⟩ := tagDiffers_eq_true fs _ ht.2
    rw [hk] at hk2
    cases hk2
    simp [parseGeom, getProp, hasKey, hk, h1, h2, bind, Except.bind, pure, Except.pure]
  | _ => simp [isGeometryTagged, tagDiffers] at ht

/-- Every object whose type field is a string other than the two wrapper tags
is geometry-tagged. -/
theorem isGeometryTagged_of_string (fs : List (String × JSVal)) (t : String)
    (hk : lookupKey "type" fs = some (str t))
    (h1 : t ≠ "FeatureCollection") (h2 : t ≠ "Feature") :
    isGeometryTagged (obj fs) = true := by
  simp [isGeometryTagged, tagDiffers, hk, looseEqTag, h1, h2]

/-- The four forms a bare coordinate array can take along its first-element
chain. -/
theorem isCoordinates_forms (gj : JSVal) (h : isCoordinates gj = true) :
    (∃ x rest, gj = arr (x :: rest) ∧ isNum x = true) ∨
    (∃ y r2 rest, gj = arr (arr (y :: r2) :: rest) ∧ isNum y = true) ∨
    (∃ z r3 r2 rest, gj = arr (arr (arr (z :: r3) :: r2) :: rest) ∧ isNum z = true) ∨
    (∃ w r4 r3 r2 rest, gj = arr (arr (arr (arr (w :: r4) :: r3) :: r2) :: rest)) := by
  obtain ⟨x, rest, rfl, hx⟩ := isCoordinates_arr gj h
  rcases hx with hx | hx
  · exact Or.inl ⟨x, rest, rfl, hx⟩
  obtain ⟨y, r2, rfl, hy⟩ := isCoordinates_arr x hx
  rcases hy with hy | hy
  · exact Or.inr (Or.inl ⟨y, r2, rest, rfl, hy⟩)
  obtain ⟨z, r3, rfl, hz⟩ := isCoordinates_arr y hy
  rcases hz with hz | hz
  · exact Or.inr (Or.inr (Or.inl ⟨z, r3, r2, rest, rfl, hz⟩))
  obtain ⟨w, r4, rfl, _⟩ := isCoordinates_arr z hz
  exact Or.inr (Or.inr (Or.inr ⟨w, r4, r3, r2, rest, rfl⟩))

theorem isNum_arr (xs : List JSVal) : isNum (arr xs) = false := rfl

theorem parseGeom_of_coordinates (gj : JSVal) (h : isCoordinates gj = true) :
    parseGeom gj = .ok (arr [coordinatesFeature (depthRuleType gj) gj]) := by
  rcases isCoordinates_forms gj h with ⟨x, rest, rfl, hx⟩ | ⟨y, r2, rest, rfl, hy⟩ |
    ⟨z, r3, r2, rest, rfl, hz⟩ | ⟨w, r4, r3, r2, rest, rfl⟩
  · simp [parseGeom_arr_cons, depthRuleType, first?, holdsNum, hx]
  · simp [parseGeom_arr_cons, depthRuleType, first?, holdsNum, hy, isNum_arr, getIndex_arr_cons_zero,
      Except.bind]
  · simp [parseGeom_arr_cons, depthRuleType, first?, holdsNum, hz, isNum_arr, getIndex_arr_cons_zero,
      Except.bind]
  · simp [parseGeom_arr_cons, depthRuleType, first?, holdsNum, isNum_arr, getIndex_arr_cons_zero,
      Except.bind]

theorem tagIs_feature_wrapper (rest : List (String × JSVal)) :
    tagIs (obj (("type", str "Feature") :: rest)) "Feature" = true := by
  simp [tagIs, lookupKey, looseEqTag]

theorem depthRuleType_eq_multiPolygon (gj : JSVal) (h : isCoordinates gj = true) :
    depthRuleType gj = "MultiPolygon" ↔ 4 ≤ firstChainDepth gj := by
  rcases isCoordinates_forms gj h with ⟨x, rest, rfl, hx⟩ | ⟨y, r2, rest, rfl, hy⟩ |
    ⟨z, r3, r2, rest, rfl, hz⟩ | ⟨w, r4, r3, r2, rest, rfl⟩
  · cases x <;> simp [isNum] at hx
    simp [depthRuleType, first?, holdsNum, isNum, firstChainDepth]
  · cases y <;> simp [isNum] at hy
    simp [depthRuleType, first?, holdsNum, isNum, firstChainDepth]
  · cases z <;> simp [isNum] at hz
    simp [depthRuleType, first?, holdsNum, isNum, firstChainDepth]
  · simp [depthRuleType, first?, holdsNum, isNum, firstChainDepth]

theorem firstChainDepth_ge_four (gj : JSVal) :
    4 ≤ firstChainDepth gj ↔ ∃ xs, ((first? gj).bind first?).bind first? = some (arr xs) := by
  constructor
  · intro h
    cases gj with
    | arr l =>
      cases l with
      | nil => simp [firstChainDepth] at h
      | cons x _ =>
        cases x with
        | arr l =>
          cases l with
          | nil => simp [firstChainDepth] at h
          | cons y _ =>
            cases y with
            | arr l =>
              cases l with
              | nil => simp [firstChainDepth] at h
              | cons z _ =>
                cases z with
                | arr l => exact ⟨l, rfl⟩
                | _ => simp [firstChainDepth] at h
            | _ => simp [firstChainDepth] at h
        | _ => simp [firstChainDepth] at h
    | _ => simp [firstChainDepth] at h
  · rintro ⟨xs, h⟩
    cases gj with
    | arr l =>
      cases l with
      | nil => simp [first?] at h
      | cons x _ =>
        cases x with
        | arr l =>
          cases l with
          | nil => simp [first?] at h
          | cons y _ =>
            cases y with
            | arr l =>
              cases l with
              | nil => simp [first?] at h
              | cons z _ =>
                simp only [first?, Option.some_bind, Option.some.injEq] at h
                subst h
                cases xs <;> simp [firstChainDepth]
            | _ => simp [first?] at h
        | _ => simp [first?] at h
    | _ => simp [first?] at h

/-- On an array the result is the MultiPolygon Feature exactly when the
fourth branch of the depth rule is reached. -/
theorem parseGeom_arr_multiPolygon (xs : List JSVal) :
    parseGeom (arr xs) = .ok (arr [coordinatesFeature "MultiPolygon" (arr xs)]) ↔
      reachesMultiPolygon (arr xs) = true := by
  rw [parseGeom_untagged (arr xs) (Or.inl ⟨xs, rfl⟩)]
  simp only [reachesMultiPolygon]
  generalize elem0 (arr xs) = a
  by_cases h1 : isNum a = true
  · simp [h1, coordinatesFeature]
  · by_cases p1 : isPresent a = true
    · by_cases h2 : isNum (elem0 a) = true
      · simp [h1, h2, getIndex_of_present a p1, Except.bind, coordinatesFeature]
      · by_cases p2 : isPresent (elem0 a) = true
        · by_cases h3 : isNum (elem0 (elem0 a)) = true <;>
            simp [h1, h2, h3, p1, p2, getIndex_of_present a p1, getIndex_of_present _ p2,
              Except.bind, coordinatesFeature]
        · simp only [Bool.not_eq_true] at p2
          simp [h1, h2, p2, getIndex_of_present a p1, getIndex_of_absent _ p2, Except.bind]
    · simp only [Bool.not_eq_true] at p1
      simp [h1, p1, getIndex_of_absent a p1, Except.bind]

theorem isFeature_wrapper (fs : List (String × JSVal))
    (ht : (lookupKey "type" fs).isSome = true)
    (hc : (lookupKey "coordinates" fs).isSome = true) :
    isFeature (obj [("type", str "Feature"), ("geometry", obj fs)]) = true := by
  simp [isFeature, lookupKey, ht, hc]

/-! ## The claims about `parseGeom` -/

/-- C1: for every input object whose type tag equals "FeatureCollection" and
whose feature list is the array `F`, `parseGeom` returns exactly `F`: the same
array, nothing wrapped, added, dropped or re-classified. (Holds for every
`F`, the empty list included.) -/
theorem parseGeom_featureCollection (fs : List (String × JSVal)) (F : List JSVal)
    (ht : tagIs (obj fs) "FeatureCollection" = true)
    (hF : lookupKey "features" fs = some (arr F)) :
    parseGeom (obj fs) = .ok (arr F) := by
  rw [parseGeom_of_collection fs ht, field, hF]
  rfl

theorem parseGeom_featureCollection_witness :
    parseGeom (obj [("type", str "FeatureCollection"),
      ("features", arr [obj [("type", str "Feature"), ("id", num 1)],
                        obj [("type", str "Feature"), ("id", num 2)]])]) =
    .ok (arr [obj [("type", str "Feature"), ("id", num 1)],
              obj [("type", str "Feature"), ("id", num 2)]]) :=
  parseGeom_featureCollection _ _ rfl rfl

/-- C2: for every input whose type tag equals "Feature", `parseGeom` returns
the one-element sequence `[input]`, whatever else the input holds or
lacks. -/
theorem parseGeom_feature (gj : JSVal) (ht : tagIs gj "Feature" = true) :
    parseGeom gj = .ok (arr [gj]) :=
  parseGeom_of_feature gj ht

theorem parseGeom_feature_witness :
    tagIs (obj [("type", str "Feature")]) "Feature" = true ∧
    parseGeom (obj [("type", str "Feature")]) = .ok (arr [obj [("type", str "Feature")]]) :=
  ⟨rfl, parseGeom_feature _ rfl⟩

/-- C3, counterexample: the object `{type: ["Feature"]}` has a type key whose
value, an array, is neither of the two tags, yet the comparison `==` converts
the array to the string "Feature": `parseGeom` returns the input itself in a
one-element sequence, not a synthetic Feature around it. -/
theorem parseGeom_array_tag_not_wrapped :
    lookupKey "type" [("type", arr [str "Feature"])] = some (arr [str "Feature"]) ∧
    parseGeom (obj [("type", arr [str "Feature"])]) =
      .ok (arr [obj [("type", arr [str "Feature"])]]) ∧
    parseGeom (obj [("type", arr [str "Feature"])]) ≠
      .ok (arr [obj [("type", str "Feature"),
        ("geometry", obj [("type", arr [str "Feature"])])]]) := by
  refine ⟨rfl, rfl, ?_⟩
  intro h
  have h2 : (Except.ok (arr [obj [("type", arr [str "Feature"])]]) : Except JSError JSVal) =
      .ok (arr [obj [("type", str "Feature"),
        ("geometry", obj [("type", arr [str "Feature"])])]]) := h
  simp at h2

/-- C3, amended: for every input object that has a type key whose value the
comparison `==` finds unequal to both "FeatureCollection" and "Feature",
without raising, `parseGeom` returns exactly one synthetic Feature
`{type:"Feature", geometry: input}`: its type is "Feature", its geometry is
the input itself, and it has no properties field. Every string other than the
two tags is such a value. -/
theorem parseGeom_geometry :
    (∀ gj : JSVal, isGeometryTagged gj = true →
      parseGeom gj = .ok (arr [obj [("type", str "Feature"), ("geometry", gj)]]) ∧
      getProp (obj [("type", str "Feature"), ("geometry", gj)]) "type" = .ok (str "Feature") ∧
      getProp (obj [("type", str "Feature"), ("geometry", gj)]) "geometry" = .ok gj ∧
      hasKey "properties" (obj [("type", str "Feature"), ("geometry", gj)]) = .ok false) ∧
    (∀ (fs : List (String × JSVal)) (t : String), lookupKey "type" fs = some (str t) →
      t ≠ "FeatureCollection" → t ≠ "Feature" → isGeometryTagged (obj fs) = true) := by
  refine ⟨fun gj ht => ⟨parseGeom_of_geometry gj ht, ?_, ?_, ?_⟩,
    fun fs t hk h1 h2 => isGeometryTagged_of_string fs t hk h1 h2⟩ <;>
    simp [getProp, hasKey, lookupKey]

theorem parseGeom_geometry_witness :
    isGeometryTagged (obj [("type", str "Point"), ("coordinates", arr [num 1, num 2])]) = true ∧
    parseGeom (obj [("type", str "Point"), ("coordinates", arr [num 1, num 2])]) =
      .ok (arr [obj [("type", str "Feature"),
        ("geometry", obj [("type", str "Point"), ("coordinates", arr [num 1, num 2])])]]) :=
  ⟨rfl, (parseGeom_geometry.1
    (obj [("type", str "Point"), ("coordinates", arr [num 1, num 2])]) rfl).1⟩

/-- C4: for every bare coordinate array `gj`, `parseGeom` returns exactly one
Feature `{type:"Feature", geometry:{type: T, coordinates: gj}}` with the
coordinates unchanged and `T` given by the depth rule (Point, LineString,
Polygon when `gj[0]`, `gj[0][0]`, `gj[0][0][0]` is a number, in that order,
MultiPolygon otherwise); and the four examples `[1,2]`, `[[1,2],[3,4]]`,
`[[[1,2],[3,4],[1,2]]]`, `[[[[1,2],[3,4],[1,2]]]]` give Point, LineString,
Polygon, MultiPolygon. -/
theorem parseGeom_coordinates :
    (∀ gj : JSVal, isCoordinates gj = true →
      parseGeom gj = .ok (arr [obj [("type", str "Feature"),
        ("geometry", obj [("type", str (depthRuleType gj)), ("coordinates", gj)])]])) ∧
    parseGeom (arr [num 1, num 2]) = .ok (arr [obj [("type", str "Feature"),
      ("geometry", obj [("type", str "Point"), ("coordinates", arr [num 1, num 2])])]]) ∧
    parseGeom (arr [arr [num 1, num 2], arr [num 3, num 4]]) =
      .ok (arr [obj [("type", str "Feature"),
        ("geometry", obj [("type", str "LineString"),
          ("coordinates", arr [arr [num 1, num 2], arr [num 3, num 4]])])]]) ∧
    parseGeom (arr [arr [arr [num 1, num 2], arr [num 3, num 4], arr [num 1, num 2]]]) =
      .ok (arr [obj [("type", str "Feature"),
        ("geometry", obj [("type", str "Polygon"),
          ("coordinates", arr [arr [arr [num 1, num 2], arr [num 3, num 4], arr [num 1, num 2]]])])]]) ∧
    parseGeom (arr [arr [arr [arr [num 1, num 2], arr [num 3, num 4], arr [num 1, num 2]]]]) =
      .ok (arr [obj [("type", str "Feature"),
        ("geometry", obj [("type", str "MultiPolygon"),
          ("coordinates",
            arr [arr [arr [arr [num 1, num 2], arr [num 3, num 4], arr [num 1, num 2]]]])])]]) :=
  ⟨fun gj h => parseGeom_of_coordinates gj h, rfl, rfl, rfl, rfl⟩

theorem parseGeom_coordinates_witness :
    isCoordinates (arr [arr [num 12.92, num 43.91], arr [num 12.93, num 43.92]]) = true ∧
    parseGeom (arr [arr [num 12.92, num 43.91], arr [num 12.93, num 43.92]]) =
      .ok (arr [obj [("type", str "Feature"),
        ("geometry", obj [("type", str "LineString"),
          ("coordinates", arr [arr [num 12.92, num 43.91], arr [num 12.93, num 43.92]])])]]) :=
  ⟨rfl, parseGeom_coordinates.1 _ rfl⟩

/-- C7, counterexample: the object `{type: {toString: 5}}` has a type key, with
a value that is neither of the two tags, but the comparison of that value
with "FeatureCollection" cannot convert it to a primitive: `parseGeom` raises
a TypeError and returns no sequence at all. -/
theorem parseGeom_unconvertible_tag_throws :
    lookupKey "type" [("type", obj [("toString", num 5)])] = some (obj [("toString", num 5)]) ∧
    parseGeom (obj [("type", obj [("toString", num 5)])]) = .error .typeError ∧
    ¬ ∃ f, parseGeom (obj [("type", obj [("toString", num 5)])]) = .ok (arr [f]) := by
  refine ⟨rfl, rfl, ?_⟩
  rintro ⟨f, h⟩
  have h2 : (Except.error JSError.typeError : Except JSError JSVal) = .ok (arr [f]) := h
  simp at h2

/-- C7, amended: idempotence on single Features: for every input `x` that is a
Feature-tagged object, an object whose type value the comparison `==` finds
unequal to both tags without raising, or a bare coordinate array,
`parseGeom x` is a one-element sequence `[f]` and `parseGeom f = [f]`. -/
theorem parseGeom_idempotent (x : JSVal)
    (h : tagIs x "Feature" = true ∨ isGeometryTagged x = true ∨ isCoordinates x = true) :
    ∃ f, parseGeom x = .ok (arr [f]) ∧ parseGeom f = .ok (arr [f]) := by
  rcases h with h | h | h
  · exact ⟨x, parseGeom_of_feature x h, parseGeom_of_feature x h⟩
  · exact ⟨_, parseGeom_of_geometry x h, parseGeom_of_feature _ (tagIs_feature_wrapper _)⟩
  · exact ⟨_, parseGeom_of_coordinates x h, parseGeom_of_feature _ (tagIs_feature_wrapper _)⟩

theorem parseGeom_idempotent_witness :
    isGeometryTagged (obj [("type", str "Point"), ("coordinates", arr [num 1, num 2])]) = true ∧
    ∃ f, parseGeom (obj [("type", str "Point"), ("coordinates", arr [num 1, num 2])]) =
      .ok (arr [f]) ∧ parseGeom f = .ok (arr [f]) :=
  ⟨rfl, parseGeom_idempotent
    (obj [("type", str "Point"), ("coordinates", arr [num 1, num 2])]) (Or.inr (Or.inl rfl))⟩

/-- C10, counterexample: the arrays `[[[]]]`, of depth 3, and `["12.9","43.9"]`,
of depth 1, are classified as MultiPolygon although their first-element chain
is shallower than depth 4 and `gj[0][0][0]` is not an array. -/
theorem parseGeom_shallow_multiPolygon :
    firstChainDepth (arr [arr [arr []]]) = 3 ∧
    ((first? (arr [arr [arr []]])).bind first?).bind first? = none ∧
    parseGeom (arr [arr [arr []]]) =
      .ok (arr [obj [("type", str "Feature"),
        ("geometry", obj [("type", str "MultiPolygon"), ("coordinates", arr [arr [arr []]])])]]) ∧
    firstChainDepth (arr [str "12.9", str "43.9"]) = 1 ∧
    parseGeom (arr [str "12.9", str "43.9"]) =
      .ok (arr [obj [("type", str "Feature"),
        ("geometry", obj [("type", str "MultiPolygon"),
          ("coordinates", arr [str "12.9", str "43.9"])])]]) :=
  ⟨rfl, rfl, rfl, rfl, rfl⟩

/-- C10, amended: for every bare array, `parseGeom` infers "MultiPolygon"
exactly when `gj[0]` and `gj[0][0]` are present and none of `gj[0]`,
`gj[0][0]`, `gj[0][0][0]` is a number. For a bare coordinate array (nested,
non-empty, numeric) that is exactly when the first-element chain is nested at
least four levels deep, that is when `gj[0][0][0]` is itself an array, and
such an array of depth below 4 is never classified as MultiPolygon. -/
theorem parseGeom_multiPolygon_rule :
    (∀ xs : List JSVal,
      parseGeom (arr xs) = .ok (arr [coordinatesFeature "MultiPolygon" (arr xs)]) ↔
        reachesMultiPolygon (arr xs) = true) ∧
    (∀ gj : JSVal, isCoordinates gj = true →
      (parseGeom gj = .ok (arr [coordinatesFeature "MultiPolygon" gj]) ↔
        4 ≤ firstChainDepth gj) ∧
      (4 ≤ firstChainDepth gj ↔
        ∃ xs, ((first? gj).bind first?).bind first? = some (arr xs)) ∧
      (firstChainDepth gj < 4 →
        parseGeom gj ≠ .ok (arr [coordinatesFeature "MultiPolygon" gj]))) := by
  refine ⟨parseGeom_arr_multiPolygon, fun gj h => ?_⟩
  have key : parseGeom gj = .ok (arr [coordinatesFeature "MultiPolygon" gj]) ↔
      4 ≤ firstChainDepth gj := by
    rw [parseGeom_of_coordinates gj h, ← depthRuleType_eq_multiPolygon gj h]
    simp [coordinatesFeature]
  refine ⟨key, firstChainDepth_ge_four gj, ?_⟩
  intro hlt hmp
  exact absurd (key.mp hmp) (by omega)

theorem parseGeom_multiPolygon_rule_witness :
    isCoordinates (arr [arr [arr [num 1, num 2], arr [num 3, num 4], arr [num 1, num 2]]]) = true ∧
    firstChainDepth (arr [arr [arr [num 1, num 2], arr [num 3, num 4], arr [num 1, num 2]]]) < 4 ∧
    parseGeom (arr [arr [arr [num 1, num 2], arr [num 3, num 4], arr [num 1, num 2]]]) ≠
      .ok (arr [coordinatesFeature "MultiPolygon"
        (arr [arr [arr [num 1, num 2], arr [num 3, num 4], arr [num 1, num 2]]])]) :=
  ⟨rfl, by decide, (parseGeom_multiPolygon_rule.2
    (arr [arr [arr [num 1, num 2], arr [num 3, num 4], arr [num 1, num 2]]]) rfl).2.2 (by decide)⟩

/-- C5, counterexample: a FeatureCollection with an empty feature list is an
input of the first shape, and the output of `parseGeom` on it is the empty
sequence, not a non-empty one. -/
theorem parseGeom_empty_collection :
    tagIs (obj [("type", str "FeatureCollection"), ("features", arr [])])
      "FeatureCollection" = true ∧
    parseGeom (obj [("type", str "FeatureCollection"), ("features", arr [])]) = .ok (arr []) ∧
    ¬ ∃ f F, parseGeom (obj [("type", str "FeatureCollection"), ("features", arr [])]) =
      .ok (arr (f :: F)) := by
  refine ⟨rfl, rfl, ?_⟩
  rintro ⟨f, F, h⟩
  have h2 : (Except.ok (arr []) : Except JSError JSVal) = .ok (arr (f :: F)) := h
  simp at h2

/-- C5, amended: for every complete input of the four shapes (a
FeatureCollection whose feature list is a non-empty array of Features, a
Feature-tagged object that has a geometry `{type, coordinates}`, an object
with a coordinates field whose type value the comparison `==` finds unequal
to both tags without raising, a bare coordinate array) the output of
`parseGeom` is a non-empty sequence every element of which is a Feature. -/
theorem parseGeom_features_of_complete (gj : JSVal) (h : isCompleteInput gj = true) :
    ∃ f F, parseGeom gj = .ok (arr (f :: F)) ∧ (f :: F).all isFeature = true := by
  cases gj with
  | obj fs =>
    simp only [isCompleteInput] at h
    by_cases h1 : tagIs (obj fs) "FeatureCollection" = true
    · simp only [h1, if_true] at h
      cases hf : lookupKey "features" fs with
      | none => simp [hf] at h
      | some v =>
        cases v with
        | arr l =>
          cases l with
          | nil => simp [hf] at h
          | cons f F =>
            simp only [hf] at h
            refine ⟨f, F, ?_, h⟩
            rw [parseGeom_of_collection fs h1, field, hf]
            rfl
        | _ => simp [hf] at h
    · simp only [Bool.not_eq_true] at h1
      by_cases h2 : tagIs (obj fs) "Feature" = true
      · simp only [h1, h2, if_true, Bool.false_eq_true, if_false] at h
        exact ⟨obj fs, [], parseGeom_of_feature _ h2, by simp [h]⟩
      · simp only [Bool.not_eq_true] at h2
        simp only [h1, h2, Bool.false_eq_true, if_false, Bool.and_eq_true] at h
        have hg : isGeometryTagged (obj fs) = true := h.1
        have ht : (lookupKey "type" fs).isSome = true := by
          simp only [isGeometryTagged, Bool.and_eq_true] at hg
          obtain ⟨v, hk, _⟩ := tagDiffers_eq_true fs _ hg.1
          simp [hk]
        have hw := isFeature_wrapper fs ht h.2
        exact ⟨_, [], parseGeom_of_geometry _ hg, by simp [hw]⟩
  | arr xs =>
    simp only [isCompleteInput] at h
    refine ⟨_, [], parseGeom_of_coordinates _ h, ?_⟩
    simp [coordinatesFeature, isFeature, lookupKey]
  | _ => simp [isCompleteInput] at h

theorem parseGeom_features_of_complete_witness :
    isCompleteInput (obj [("type", str "FeatureCollection"), ("features",
      arr [obj [("type", str "Feature"),
        ("geometry", obj [("type", str "Point"), ("coordinates", arr [num 1, num 2])])]])]) = true ∧
    ∃ f F, parseGeom (obj [("type", str "FeatureCollection"), ("features",
      arr [obj [("type", str "Feature"),
        ("geometry", obj [("type", str "Point"), ("coordinates", arr [num 1, num 2])])]])]) =
      .ok (arr (f :: F)) ∧ (f :: F).all isFeature = true :=
  ⟨rfl, parseGeom_features_of_complete
    (obj [("type", str "FeatureCollection"), ("features",
      arr [obj [("type", str "Feature"),
        ("geometry", obj [("type", str "Point"), ("coordinates", arr [num 1, num 2])])]])]) rfl⟩

/-- C6: on the empty array, and on `[[]]`, `parseGeom` raises a TypeError
instead of returning a best-effort feature sequence: the second depth test
reads index 0 of `undefined` on `[]`, and the third does on `[[]]`. -/
theorem parseGeom_empty_array_throws :
    parseGeom (arr []) = .error .typeError ∧
    parseGeom (arr [arr []]) = .error .typeError :=
  ⟨rfl, rfl⟩

/-! ## Properties of `addPoints` and of the panel -/

theorem rowField_objs (rows : List (List (String × JSVal))) (row : Nat) (k : String)
    (h : row < rows.length) :
    rowField (rows.map obj) row k = .ok (field (rows.get ⟨row, h⟩) k) := by
  simp [rowField, getIndex, getProp, field, List.getD, h, bind, Except.bind]

theorem includes_markerType : includes markerType "circle" = false := by decide

theorem addPointsLoop_objs (rows : List (List (String × JSVal))) :
    ∀ (k row : Nat) (layer : List Marker), row + k = rows.length →
      addPointsLoop (rows.map obj) k row layer = .ok (layer ++ (rows.drop row).map rowMarker) := by
  intro k
  induction k with
  | zero =>
    intro row layer h
    have hd : rows.drop row = [] := List.drop_eq_nil_of_le (by omega)
    simp [addPointsLoop, hd, pure, Except.pure]
  | succ k ih =>
    intro row layer h
    have hlt : row < rows.length := by omega
    have hd : rows.drop row = rows.get ⟨row, hlt⟩ :: rows.drop (row + 1) := by
      rw [List.drop_eq_getElem_cons hlt]
      rfl
    have hm : markerType ≠ "circleMarker" ∧ markerType ≠ "circle" := by decide
    simp only [addPointsLoop, rowField_objs rows row _ hlt, bind, Except.bind, includes_markerType,
      hm.1, hm.2, if_false]
    rw [ih (row + 1) _ (by omega), hd]
    simp only [List.map_cons, List.append_assoc, List.cons_append, List.nil_append]
    rfl

theorem addPoints_objs (rows : List (List (String × JSVal))) :
    addPoints ⟨rows.map obj⟩ = .ok (rows.map rowMarker) := by
  have h := addPointsLoop_objs rows rows.length 0 [] (by omega)
  simpa [addPoints] using h

theorem runClicks_append (clicks : List Click) (c : Click) (p : Page) :
    runClicks (clicks ++ [c]) p = fire c (runClicks clicks p) := by
  simp [runClicks, List.foldl_append]

/-- C9: for every parsed result whose data is a list of rows, `addPoints`
builds exactly one point visual per row, in row order: as many markers as
rows, the i-th at (lat, lon) of row i, with the name and description of row i
as feature properties and an icon in the color of row i; the single row
`{name:"A", description:"d1", color:"red", lat:43.9, lon:12.9}` gives exactly
one marker, at (43.9, 12.9). -/
theorem addPoints_one_marker_per_row :
    (∀ rows : List (List (String × JSVal)),
      ∃ markers, addPoints ⟨rows.map obj⟩ = .ok markers ∧
        markers.length = rows.length ∧
        markers.map (fun m => m.latlng) = rows.map (fun r => (field r "lat", field r "lon")) ∧
        markers.map (fun m => (m.feature.properties.name, m.feature.properties.description)) =
          rows.map (fun r => (field r "name", field r "description")) ∧
        markers.map (fun m => m.icon.map (fun i => i.markerColor)) =
          rows.map (fun r => some (field r "color"))) ∧
    (∃ m, addPoints ⟨[obj [("name", str "A"), ("description", str "d1"), ("color", str "red"),
        ("lat", num 43.9), ("lon", num 12.9)]]⟩ = .ok [m] ∧
      m.latlng = (num 43.9, num 12.9) ∧ m.feature.properties.name = str "A" ∧
      m.feature.properties.description = str "d1" ∧
      m.icon.map (fun i => i.markerColor) = some (str "red")) := by
  refine ⟨fun rows => ⟨rows.map rowMarker, addPoints_objs rows, ?_, ?_, ?_, ?_⟩, ?_⟩
  · simp
  · simp [rowMarker, Function.comp_def]
  · simp [rowMarker, Function.comp_def]
  · simp [rowMarker, Function.comp_def]
  · exact ⟨_, rfl, rfl, rfl, rfl, rfl⟩

/-- C8: the panel starts Closed; after any finite sequence of clicks, from any
state, the panel is Open with title and body set to the name and description
of row b when the last click was on the marker of row b, and the map-level
handler does not run on that click because the marker handler stops
propagation; it is Closed when the last click was on the map background, and
Closed when there was no click. -/
theorem panel_after_clicks (rows : List (List (String × JSVal))) :
    initPage.openPanel = none ∧ runClicks [] initPage = initPage ∧
    (∀ (clicks : List Click) (p : Page),
      (runClicks (clicks ++ [Click.background]) p).openPanel = none) ∧
    (∀ (clicks : List Click) (p : Page) (b : Nat) (h : b < rows.length),
      ∃ markers m, addPoints ⟨rows.map obj⟩ = .ok markers ∧ markers.get? b = some m ∧
        runClicks (clicks ++ [Click.marker m]) p =
          { sidebarTitle := field (rows.get ⟨b, h⟩) "name",
            sidebarContent := field (rows.get ⟨b, h⟩) "description",
            openPanel := some panelID } ∧
        (∀ q : Page, (markerClick ⟨m, false⟩ q).1.propagationStopped = true ∧
          fire (Click.marker m) q = (markerClick ⟨m, false⟩ q).2)) := by
  refine ⟨rfl, rfl, ?_, ?_⟩
  · intro clicks p
    rw [runClicks_append]
    rfl
  · intro clicks p b h
    refine ⟨rows.map rowMarker, rowMarker (rows.get ⟨b, h⟩), addPoints_objs rows, ?_, ?_, ?_⟩
    · simp [List.get?_eq_getElem?, h]
    · rw [runClicks_append]
      rfl
    · intro q
      exact ⟨rfl, rfl⟩

theorem panel_after_clicks_witness :
    ∃ markers m, addPoints ⟨[obj [("name", str "A"), ("description", str "d1"),
        ("color", str "red"), ("lat", num 43.9), ("lon", num 12.9)]]⟩ = .ok markers ∧
      markers.get? 0 = some m ∧
      runClicks ([Click.background] ++ [Click.marker m]) initPage =
        { sidebarTitle := str "A", sidebarContent := str "d1", openPanel := some panelID } ∧
      (∀ q : Page, (markerClick ⟨m, false⟩ q).1.propagationStopped = true ∧
        fire (Click.marker m) q = (markerClick ⟨m, false⟩ q).2) :=
  (panel_after_clicks [[("name", str "A"), ("description", str "d1"),
      ("color", str "red"), ("lat", num 43.9), ("lon", num 12.9)]]).2.2.2
    [Click.background] initPage 0 (by decide)

end LeafletGSheets
